import Mathlib

/-!
Shallow embedding of `src/server.js`, a minimal authenticated task-tracking
backend (Express + MongoDB + bcryptjs + jsonwebtoken), together with proofs
of the specification claims about it.

Modelling decisions:
* The two Mongo collections (`User`, `Task`) and the id counter become a pure
  `DB` state threaded through the handlers; Mongo ObjectIds become `Nat`.
* The external `jsonwebtoken` library is modelled by an executable
  sign/decode codec over `List Char`: a signed token embeds the payload
  (userId, absolute expiry) and the signing secret, and `jwtVerify` checks
  the signature (secret match) before the expiry, exactly as the library
  does observably.  The concrete serialisation of the library is opaque to
  the repository, so any injective executable encoding is a faithful model.
* The external `bcryptjs` library is modelled the same way: `bcryptHash`
  embeds the cost and the password behind a marker, `bcryptCompare`
  re-derives the cost from the stored hash and re-hashes, as bcrypt does.
* JS truthiness of request-body fields (`if (!title)` rejects both missing
  and empty-string fields) is modelled by `truthy : Option String → Bool`.
* `header.replace('Bearer ', '')` in JS removes the first occurrence of the
  pattern anywhere in the string; `stripFirst` reproduces that.
-/

namespace Backend

/-- A persisted user record (`UserSchema` in `server.js`): store-assigned id,
unique username, stored (hashed) password. -/
structure User where
  _id : Nat
  username : String
  password : String
deriving DecidableEq, Repr

/-- A persisted task record (`TaskSchema` in `server.js`). The
`completionDate` is kept as the string supplied by the client. -/
structure Task where
  _id : Nat
  title : String
  status : String
  completionDate : String
  userId : Nat
deriving DecidableEq, Repr

/-- The backing document store: both collections plus the fresh-id counter
standing in for Mongo ObjectId generation. -/
structure DB where
  users : List User
  tasks : List Task
  nextId : Nat
deriving DecidableEq, Repr

/-- JSON response bodies produced by the handlers of `server.js`. -/
inductive Body where
  | err (msg : String)
  | msg (msg : String)
  | msgTask (msg : String) (task : Task)
  | token (tok : String)
  | tasks (ts : List Task)
deriving DecidableEq, Repr

/-- An HTTP response: status code and JSON body. -/
structure HttpResponse where
  status : Nat
  body : Body
deriving DecidableEq, Repr

/-- JS truthiness of an optional request-body string field: `undefined` and
`""` are falsy, every other string is truthy. -/
def truthy : Option String → Bool
  | none => false
  | some s => !(s == "")

/-- Count the leading copies of `c` in a character list and return the rest.
Used by the codecs modelling the opaque serialisations of the external
`jsonwebtoken` and `bcryptjs` libraries. -/
def countLead (c : Char) : List Char → Nat × List Char
  | [] => (0, [])
  | x :: xs =>
    if x = c then ((countLead c xs).1 + 1, (countLead c xs).2)
    else (0, x :: xs)

/-- Payload of a JWT issued by `server.js`: the embedded `userId` claim and
the absolute expiry time (seconds), set by `expiresIn: '1h'` to one hour
after issuance. -/
structure TokenPayload where
  userId : Nat
  exp : Nat
deriving DecidableEq, Repr

/-- Model of `jwt.sign(payload, secret)`: an injective serialisation of the
payload followed by the signature, here represented by the secret itself
(the repository never inspects token internals, so this models exactly the
observable behaviour: `jwtVerify` succeeds precisely on tokens signed with
the same secret). -/
def jwtSign (p : TokenPayload) (secret : String) : String :=
  ⟨List.replicate p.userId 'u' ++ '.' :: List.replicate p.exp 'x' ++ '.' :: secret.data⟩

/-- Model of the parsing half of `jwt.verify`: recover the payload and the
signature from a token string; `none` on malformed input. -/
def jwtDecode (s : String) : Option (TokenPayload × String) :=
  match countLead 'u' s.data with
  | (u, '.' :: r2) =>
    match countLead 'x' r2 with
    | (e, '.' :: sec) => some (⟨u, e⟩, ⟨sec⟩)
    | _ => none
  | _ => none

/-- The two failure modes of `jwt.verify`: bad signature / malformed token,
and expiry. -/
inductive JwtError where
  | invalid
  | expired
deriving DecidableEq, Repr

/-- Model of `jwt.verify(token, secret)` called at time `now`: malformed or
wrongly-signed tokens fail with `invalid`; a well-signed token fails with
`expired` iff `now ≥ exp` (jsonwebtoken rejects exactly when the clock is at
or past the `exp` claim); otherwise the embedded payload is returned. -/
def jwtVerify (token secret : String) (now : Nat) : Except JwtError TokenPayload :=
  match jwtDecode token with
  | none => .error .invalid
  | some (p, sig) =>
    if sig == secret then
      if now < p.exp then .ok p else .error .expired
    else .error .invalid

/-- Model of `bcrypt.hash(pw, cost)`: marker, unary cost, marker, password.
The real bcrypt output is opaque to the repository; what matters is that the
stored credential is not the plaintext and that `bcryptCompare` recomputes
the hash from the cost recorded inside it. -/
def bcryptHash (pw : String) (cost : Nat) : String :=
  ⟨'#' :: (List.replicate cost '*' ++ '#' :: pw.data)⟩

/-- Model of `bcrypt.compare(pw, stored)`: extract the cost from the stored
hash, re-hash `pw` with it, compare. -/
def bcryptCompare (pw stored : String) : Bool :=
  match stored.data with
  | '#' :: rest =>
    match countLead '*' rest with
    | (_, '#' :: pwd) => pwd == pw.data
    | _ => false
  | _ => false

/-- Remove the first (leftmost) occurrence of `pat` from `l`, the semantics
of JS `String.prototype.replace(pat, '')` with a string pattern. -/
def stripFirst (pat : List Char) : List Char → List Char
  | [] => []
  | x :: xs =>
    if pat.isPrefixOf (x :: xs) then (x :: xs).drop pat.length
    else x :: stripFirst pat xs

/-- `header.replace('Bearer ', '')` from the middleware in `server.js`. -/
def replaceBearer (s : String) : String :=
  ⟨stripFirst "Bearer ".data s.data⟩

/-- The `authenticateJWT` middleware of `server.js`: no `Authorization`
header, or an empty token after stripping `Bearer `, yields 401; a token
that fails `jwt.verify` yields 403; otherwise the decoded payload is
attached to the request. -/
def authenticateJWT (header : Option String) (secret : String) (now : Nat) :
    Except HttpResponse TokenPayload :=
  match header with
  | none => .error ⟨401, .err "Authentication required"⟩
  | some h =>
    let token := replaceBearer h
    if token == "" then .error ⟨401, .err "Authentication required"⟩
    else
      match jwtVerify token secret now with
      | .error _ => .error ⟨403, .err "Invalid or expired token"⟩
      | .ok p => .ok p

/-- Wiring of `app.<method>('/tasks...', authenticateJWT, handler)`: the
handler runs only when the middleware calls `next()`, with `req.user.userId`
taken from the verified payload. -/
def protectedRoute (header : Option String) (secret : String) (now : Nat)
    (handler : Nat → DB → HttpResponse × DB) (db : DB) : HttpResponse × DB :=
  match authenticateJWT header secret now with
  | .error resp => (resp, db)
  | .ok p => handler p.userId db

/-- `app.post('/register')`: presence check, duplicate-username check, then
persist the bcrypt-hashed credential. -/
def register (db : DB) (username password : Option String) : HttpResponse × DB :=
  if !truthy username || !truthy password then
    (⟨400, .err "Please provide both username and password"⟩, db)
  else
    match db.users.find? (fun u => u.username == username.getD "") with
    | some _ => (⟨400, .err "Username already exists"⟩, db)
    | none =>
      let newUser : User :=
        ⟨db.nextId, username.getD "", bcryptHash (password.getD "") 10⟩
      (⟨201, .msg "Registration successful!"⟩,
       { db with users := db.users ++ [newUser], nextId := db.nextId + 1 })

/-- `app.post('/login')` at time `now`: presence check, user lookup, bcrypt
comparison, then a signed token expiring one hour (3600 seconds) after
issuance.  Lookup failure and password mismatch produce identical
responses. -/
def login (db : DB) (username password : Option String) (secret : String)
    (now : Nat) : HttpResponse × DB :=
  if !truthy username || !truthy password then
    (⟨400, .err "Please provide both username and password"⟩, db)
  else
    match db.users.find? (fun u => u.username == username.getD "") with
    | none => (⟨400, .err "Invalid username or password"⟩, db)
    | some user =>
      if bcryptCompare (password.getD "") user.password then
        (⟨200, .token (jwtSign ⟨user._id, now + 3600⟩ secret)⟩, db)
      else (⟨400, .err "Invalid username or password"⟩, db)

/-- `app.post('/tasks')` downstream handler: presence check, then persist a
new task owned by the authenticated user. -/
def postTasks (uid : Nat) (title status completionDate : Option String)
    (db : DB) : HttpResponse × DB :=
  if !truthy title || !truthy status || !truthy completionDate then
    (⟨400, .err "Please provide all fields"⟩, db)
  else
    let newTask : Task :=
      ⟨db.nextId, title.getD "", status.getD "", completionDate.getD "", uid⟩
    (⟨201, .msgTask "Task added successfully" newTask⟩,
     { db with tasks := db.tasks ++ [newTask], nextId := db.nextId + 1 })

/-- `app.get('/tasks')` downstream handler: `Task.find({userId})`. -/
def getTasks (uid : Nat) (db : DB) : HttpResponse × DB :=
  (⟨200, .tasks (db.tasks.filter (fun t => t.userId == uid))⟩, db)

/-- `app.delete('/tasks/:id')` downstream handler: ownership-scoped lookup
(`findOne({_id, userId})`), then `deleteOne({_id})`. -/
def deleteTask (id uid : Nat) (db : DB) : HttpResponse × DB :=
  match db.tasks.find? (fun t => t._id == id && t.userId == uid) with
  | none => (⟨404, .err "Task not found or not authorized to delete it"⟩, db)
  | some _ =>
    (⟨200, .msg "Task deleted successfully"⟩,
     { db with tasks := db.tasks.eraseP (fun t => t._id == id) })

/-- `app.put('/tasks/:id')` downstream handler: presence check,
ownership-scoped lookup, then in-place overwrite of the mutable fields of
the found document followed by `task.save()`. -/
def putTask (id uid : Nat) (title status completionDate : Option String)
    (db : DB) : HttpResponse × DB :=
  if !truthy title || !truthy status || !truthy completionDate then
    (⟨400, .err "Please provide all fields"⟩, db)
  else
    match db.tasks.find? (fun t => t._id == id && t.userId == uid) with
    | none => (⟨404, .err "Task not found or not authorized to update it"⟩, db)
    | some t =>
      let updated : Task :=
        { t with title := title.getD "", status := status.getD "",
                 completionDate := completionDate.getD "" }
      (⟨200, .msgTask "Task updated successfully" updated⟩,
       { db with tasks :=
           db.tasks.map (fun t2 => if t2._id == id && t2.userId == uid then updated else t2) })

/-! ### Helper lemmas about the external-library models -/

theorem truthy_some {s : String} (h : s ≠ "") : truthy (some s) = true := by
  simp [truthy, h]

theorem countLead_replicate {c d : Char} (hne : d ≠ c) (n : Nat) (rest : List Char) :
    countLead c (List.replicate n c ++ d :: rest) = (n, d :: rest) := by
  induction n with
  | zero => simp [countLead, hne]
  | succ k ih => simp [countLead, List.replicate_succ, ih]

theorem jwtDecode_jwtSign (p : TokenPayload) (secret : String) :
    jwtDecode (jwtSign p secret) = some (p, secret) := by
  have h1 : ('.' : Char) ≠ 'u' := by decide
  have h2 : ('.' : Char) ≠ 'x' := by decide
  simp [jwtDecode, jwtSign, countLead_replicate h1, countLead_replicate h2]

theorem jwtVerify_jwtSign (p : TokenPayload) (secret : String) (now : Nat) :
    jwtVerify (jwtSign p secret) secret now =
      if now < p.exp then .ok p else .error .expired := by
  simp [jwtVerify, jwtDecode_jwtSign]

theorem jwtSign_ne_empty (p : TokenPayload) (secret : String) :
    jwtSign p secret ≠ "" := by
  intro h
  have := congrArg String.data h
  simp [jwtSign] at this

theorem jwtVerify_empty (secret : String) (now : Nat) :
    jwtVerify "" secret now = .error .invalid := rfl

theorem bcryptCompare_hash_self (pw : String) (cost : Nat) :
    bcryptCompare pw (bcryptHash pw cost) = true := by
  have h : ('#' : Char) ≠ '*' := by decide
  simp [bcryptCompare, bcryptHash, countLead_replicate h]

theorem bcryptCompare_hash_ne {pw pw2 : String} (cost : Nat) (hne : pw2 ≠ pw) :
    bcryptCompare pw (bcryptHash pw2 cost) = false := by
  have h : ('#' : Char) ≠ '*' := by decide
  simp [bcryptCompare, bcryptHash, countLead_replicate h]
  intro hdata
  exact hne (String.ext hdata)

theorem bcryptHash_ne_plaintext (pw : String) (cost : Nat) :
    bcryptHash pw cost ≠ pw := by
  intro h
  have hlen := congrArg (fun s => s.data.length) h
  simp [bcryptHash] at hlen
  omega

theorem stripFirst_self_append (c : Char) (pr rest : List Char) :
    stripFirst (c :: pr) ((c :: pr) ++ rest) = rest := by
  have hpre : (c :: pr).isPrefixOf (c :: (pr ++ rest)) = true := by
    rw [List.isPrefixOf_iff_prefix]
    exact List.prefix_append _ _
  show stripFirst (c :: pr) (c :: (pr ++ rest)) = rest
  simp only [stripFirst, hpre, if_true]
  simp [List.drop_left]

theorem replaceBearer_bearer_append (tok : String) :
    replaceBearer ("Bearer " ++ tok) = tok := by
  apply String.ext
  have hB : "Bearer ".data = 'B' :: "earer ".data := rfl
  simp only [replaceBearer, String.data_append, hB]
  exact stripFirst_self_append 'B' "earer ".data tok.data

theorem find?_append_of_none {α : Type} {p : α → Bool} {l1 : List α}
    (l2 : List α) (h : l1.find? p = none) :
    (l1 ++ l2).find? p = l2.find? p := by
  simp [List.find?_append, h]

/-! ### Claim theorems -/

/-- C2: on every `/tasks` route, a missing `Authorization` header or an
empty token (after stripping `Bearer `) yields 401 without running the
downstream handler; a present token failing verification yields 403 without
running the handler; a verified token runs the handler with the embedded
`userId` as the authenticated identity. -/
theorem auth_gate_spec (secret : String) (now : Nat) (db : DB)
    (handler : Nat → DB → HttpResponse × DB) :
    protectedRoute none secret now handler db =
      (⟨401, .err "Authentication required"⟩, db) ∧
    (∀ h : String, replaceBearer h = "" →
      protectedRoute (some h) secret now handler db =
        (⟨401, .err "Authentication required"⟩, db)) ∧
    (∀ (h : String) (e : JwtError),
      replaceBearer h ≠ "" →
      jwtVerify (replaceBearer h) secret now = .error e →
      protectedRoute (some h) secret now handler db =
        (⟨403, .err "Invalid or expired token"⟩, db)) ∧
    (∀ (h : String) (p : TokenPayload),
      jwtVerify (replaceBearer h) secret now = .ok p →
      protectedRoute (some h) secret now handler db = handler p.userId db) := by
  refine ⟨rfl, ?_, ?_, ?_⟩
  · intro h hh
    simp [protectedRoute, authenticateJWT, hh]
  · intro h e hne hv
    simp [protectedRoute, authenticateJWT, hne, hv]
  · intro h p hv
    have hne : replaceBearer h ≠ "" := by
      intro h0
      rw [h0, jwtVerify_empty] at hv
      exact absurd hv (by simp)
    simp [protectedRoute, authenticateJWT, hne, hv]

/-- Witness for C2: the three rejection/acceptance behaviours at concrete
inputs. -/
theorem auth_gate_spec_witness :
    protectedRoute (some "Bearer ") "s" 0 getTasks ⟨[], [], 0⟩ =
      (⟨401, .err "Authentication required"⟩, ⟨[], [], 0⟩) ∧
    protectedRoute (some "junk") "s" 0 getTasks ⟨[], [], 0⟩ =
      (⟨403, .err "Invalid or expired token"⟩, ⟨[], [], 0⟩) ∧
    protectedRoute (some (jwtSign ⟨7, 5⟩ "s")) "s" 0 getTasks ⟨[], [], 0⟩ =
      getTasks 7 ⟨[], [], 0⟩ :=
  ⟨(auth_gate_spec "s" 0 ⟨[], [], 0⟩ getTasks).2.1 "Bearer " (by decide),
   (auth_gate_spec "s" 0 ⟨[], [], 0⟩ getTasks).2.2.1 "junk" .invalid (by decide) rfl,
   (auth_gate_spec "s" 0 ⟨[], [], 0⟩ getTasks).2.2.2 (jwtSign ⟨7, 5⟩ "s") ⟨7, 5⟩ rfl⟩

/-- C10: the middleware does not require the literal `Bearer ` prefix: any
header string on which stripping is a no-op (in particular a bare valid
token, since real tokens never contain the space-containing pattern) is
passed to verification as-is and accepted when it verifies; conversely the
header `"Bearer "` leaves an empty token and yields 401, not 403. -/
theorem bearer_prefix_optional (secret : String) (now : Nat) :
    (∀ (tok : String) (p : TokenPayload),
      replaceBearer tok = tok →
      jwtVerify tok secret now = .ok p →
      authenticateJWT (some tok) secret now = .ok p) ∧
    authenticateJWT (some "Bearer ") secret now =
      .error ⟨401, .err "Authentication required"⟩ := by
  constructor
  · intro tok p hstrip hv
    have hne : tok ≠ "" := by
      intro h0
      rw [h0, jwtVerify_empty] at hv
      exact absurd hv (by simp)
    simp [authenticateJWT, hstrip, hne, hv]
  · have h0 : replaceBearer "Bearer " = "" := by decide
    simp [authenticateJWT, h0]

/-- Witness for C10: a bare token (no `Bearer ` prefix) is authenticated. -/
theorem bearer_prefix_optional_witness :
    authenticateJWT (some (jwtSign ⟨2, 5⟩ "s")) "s" 1 = .ok ⟨2, 5⟩ :=
  (bearer_prefix_optional "s" 1).1 (jwtSign ⟨2, 5⟩ "s") ⟨2, 5⟩ (by decide) rfl

/-- C8: token verification never consults the Credential Store: the outcome
of an authenticated request depends only on the token, secret, time and the
Task Store (any two stores agreeing on tasks give identical responses
whatever their users), and a well-signed unexpired token is accepted even
when its embedded user is absent from the store. -/
theorem verify_independent_of_store (header : Option String) (secret : String)
    (now : Nat) :
    (∀ db1 db2 : DB, db1.tasks = db2.tasks →
      (protectedRoute header secret now getTasks db1).1 =
        (protectedRoute header secret now getTasks db2).1) ∧
    (∀ (db : DB) (p : TokenPayload),
      (∀ u ∈ db.users, u._id ≠ p.userId) →
      now < p.exp →
      protectedRoute (some ("Bearer " ++ jwtSign p secret)) secret now getTasks db =
        getTasks p.userId db) := by
  constructor
  · intro db1 db2 htasks
    unfold protectedRoute
    cases authenticateJWT header secret now with
    | error resp => rfl
    | ok p => simp [getTasks, htasks]
  · intro db p _ hexp
    have hstrip := replaceBearer_bearer_append (jwtSign p secret)
    have hne := jwtSign_ne_empty p secret
    simp [protectedRoute, authenticateJWT, hstrip, hne, jwtVerify_jwtSign, hexp]

/-- Witness for C8: a token for user 9, absent from a store holding only
user 1, is accepted and the task handler runs. -/
theorem verify_independent_of_store_witness :
    protectedRoute (some ("Bearer " ++ jwtSign ⟨9, 5⟩ "s")) "s" 0 getTasks
        ⟨[⟨1, "alice", "h"⟩], [], 2⟩ =
      getTasks 9 ⟨[⟨1, "alice", "h"⟩], [], 2⟩ :=
  (verify_independent_of_store (some ("Bearer " ++ jwtSign ⟨9, 5⟩ "s")) "s" 0).2
    ⟨[⟨1, "alice", "h"⟩], [], 2⟩ ⟨9, 5⟩ (by decide) (by decide)

/-- C4 counterexample: the claim quantifies over every username, but the
handler's truthiness check rejects the empty username with 400 even when the
store has no user named `""` and the password is non-empty, so the first
registration does not return 201 as claimed. -/
theorem register_empty_username_cex :
    register ⟨[], [], 0⟩ (some "") (some "pw") =
      (⟨400, .err "Please provide both username and password"⟩, ⟨[], [], 0⟩) ∧
    (register ⟨[], [], 0⟩ (some "") (some "pw")).1.status ≠ 201 := by
  constructor
  · rfl
  · decide

/-- C4 (amended): for every non-empty username and non-empty password,
registering when no user with that username exists returns 201 and persists
a new User whose stored credential is the salted hash, never the plaintext;
registering the same username again returns 400 and leaves the Credential
Store unchanged. -/
theorem register_then_duplicate (db : DB) (uname pw : String)
    (hu : uname ≠ "") (hp : pw ≠ "")
    (hfresh : db.users.find? (fun u => u.username == uname) = none) :
    register db (some uname) (some pw) =
      (⟨201, .msg "Registration successful!"⟩,
       { db with users := db.users ++ [⟨db.nextId, uname, bcryptHash pw 10⟩],
                 nextId := db.nextId + 1 }) ∧
    bcryptHash pw 10 ≠ pw ∧
    register (register db (some uname) (some pw)).2 (some uname) (some pw) =
      (⟨400, .err "Username already exists"⟩,
       (register db (some uname) (some pw)).2) := by
  have e1 : register db (some uname) (some pw) =
      (⟨201, .msg "Registration successful!"⟩,
       { db with users := db.users ++ [⟨db.nextId, uname, bcryptHash pw 10⟩],
                 nextId := db.nextId + 1 }) := by
    simp [register, truthy_some hu, truthy_some hp, hfresh]
  refine ⟨e1, bcryptHash_ne_plaintext pw 10, ?_⟩
  rw [e1]
  have hfind2 :
      (db.users ++ [(⟨db.nextId, uname, bcryptHash pw 10⟩ : User)]).find?
          (fun u => u.username == uname) =
        some ⟨db.nextId, uname, bcryptHash pw 10⟩ := by
    rw [find?_append_of_none _ hfresh]
    simp [List.find?]
  simp [register, truthy_some hu, truthy_some hp, hfind2]

/-- Witness for C4's amended theorem: registering `alice` twice on an empty
store. -/
theorem register_then_duplicate_witness :
    register ⟨[], [], 0⟩ (some "alice") (some "pw") =
      (⟨201, .msg "Registration successful!"⟩,
       ⟨[⟨0, "alice", bcryptHash "pw" 10⟩], [], 1⟩) ∧
    bcryptHash "pw" 10 ≠ "pw" ∧
    register (register ⟨[], [], 0⟩ (some "alice") (some "pw")).2
        (some "alice") (some "pw") =
      (⟨400, .err "Username already exists"⟩,
       (register ⟨[], [], 0⟩ (some "alice") (some "pw")).2) :=
  register_then_duplicate ⟨[], [], 0⟩ "alice" "pw" (by decide) (by decide) rfl

/-- C5: logging in with correct credentials returns a token that verifies
to the user's own `userId` at every time strictly before one hour after
issuance, and is rejected as expired at every time from one hour on. -/
theorem login_token_lifetime (db : DB) (uname pw secret : String) (t0 : Nat)
    (user : User) (hu : uname ≠ "") (hp : pw ≠ "")
    (hfind : db.users.find? (fun u => u.username == uname) = some user)
    (hpw : user.password = bcryptHash pw 10) :
    ∃ tok : String,
      login db (some uname) (some pw) secret t0 = (⟨200, .token tok⟩, db) ∧
      (∀ t, t < t0 + 3600 →
        jwtVerify tok secret t = .ok ⟨user._id, t0 + 3600⟩) ∧
      (∀ t, t0 + 3600 ≤ t → jwtVerify tok secret t = .error .expired) := by
  refine ⟨jwtSign ⟨user._id, t0 + 3600⟩ secret, ?_, ?_, ?_⟩
  · simp [login, truthy_some hu, truthy_some hp, hfind, hpw,
      bcryptCompare_hash_self]
  · intro t ht
    rw [jwtVerify_jwtSign]
    simp [ht]
  · intro t ht
    rw [jwtVerify_jwtSign]
    simp [show ¬ t < t0 + 3600 from Nat.not_lt.mpr ht]

/-- Witness for C5: `alice` logs in at time 0; the token verifies at time
3599 and is expired at time 3600. -/
theorem login_token_lifetime_witness :
    ∃ tok : String,
      login ⟨[⟨0, "alice", bcryptHash "pw" 10⟩], [], 1⟩ (some "alice")
          (some "pw") "sec" 0 =
        (⟨200, .token tok⟩, ⟨[⟨0, "alice", bcryptHash "pw" 10⟩], [], 1⟩) ∧
      (∀ t, t < 0 + 3600 → jwtVerify tok "sec" t = .ok ⟨0, 0 + 3600⟩) ∧
      (∀ t, 0 + 3600 ≤ t → jwtVerify tok "sec" t = .error .expired) :=
  login_token_lifetime ⟨[⟨0, "alice", bcryptHash "pw" 10⟩], [], 1⟩ "alice"
    "pw" "sec" 0 ⟨0, "alice", bcryptHash "pw" 10⟩ (by decide) (by decide)
    rfl rfl

/-- C6: a login whose fields are present but which fails for credential
reasons produces the identical 400 response whether the username does not
exist or exists with a mismatching password, even at different times. -/
theorem login_failure_indistinguishable (db1 db2 : DB)
    (uname pw secret : String) (now1 now2 : Nat) (user : User)
    (hu : uname ≠ "") (hp : pw ≠ "")
    (h1 : db1.users.find? (fun u => u.username == uname) = none)
    (h2 : db2.users.find? (fun u => u.username == uname) = some user)
    (h3 : bcryptCompare pw user.password = false) :
    (login db1 (some uname) (some pw) secret now1).1 =
      (login db2 (some uname) (some pw) secret now2).1 ∧
    (login db1 (some uname) (some pw) secret now1).1 =
      ⟨400, .err "Invalid username or password"⟩ := by
  have e1 : (login db1 (some uname) (some pw) secret now1).1 =
      ⟨400, .err "Invalid username or password"⟩ := by
    simp [login, truthy_some hu, truthy_some hp, h1]
  have e2 : (login db2 (some uname) (some pw) secret now2).1 =
      ⟨400, .err "Invalid username or password"⟩ := by
    simp [login, truthy_some hu, truthy_some hp, h2, h3]
  exact ⟨e1.trans e2.symm, e1⟩

/-- Witness for C6: `alice` with a wrong password versus a store without
`alice` give the same observable response. -/
theorem login_failure_indistinguishable_witness :
    (login ⟨[], [], 0⟩ (some "alice") (some "wrong") "sec" 3).1 =
      (login ⟨[⟨0, "alice", bcryptHash "right" 10⟩], [], 1⟩ (some "alice")
        (some "wrong") "sec" 7).1 ∧
    (login ⟨[], [], 0⟩ (some "alice") (some "wrong") "sec" 3).1 =
      ⟨400, .err "Invalid username or password"⟩ :=
  login_failure_indistinguishable ⟨[], [], 0⟩
    ⟨[⟨0, "alice", bcryptHash "right" 10⟩], [], 1⟩ "alice" "wrong" "sec" 3 7
    ⟨0, "alice", bcryptHash "right" 10⟩ (by decide) (by decide) rfl rfl
    (by decide)

/-- C1: with any two distinct users A and B, `GET /tasks` as B never lists
a task owned by A, and `PUT`/`DELETE` as B on a task owned by A (the only
task with that id) answer 404 with the store — hence that task — untouched
(for `PUT`, with a well-formed body, since field validation precedes the
ownership check). -/
theorem owner_scoping (db : DB) (A B id : Nat) (hAB : A ≠ B)
    (hOwn : ∀ t ∈ db.tasks, t._id = id → t.userId = A) :
    (∀ l, (getTasks B db).1.body = .tasks l → ∀ t ∈ l, t.userId ≠ A) ∧
    deleteTask id B db =
      (⟨404, .err "Task not found or not authorized to delete it"⟩, db) ∧
    (∀ title status date : String, title ≠ "" → status ≠ "" → date ≠ "" →
      putTask id B (some title) (some status) (some date) db =
        (⟨404, .err "Task not found or not authorized to update it"⟩, db)) := by
  have hfind : db.tasks.find? (fun t => t._id == id && t.userId == B) = none := by
    rw [List.find?_eq_none]
    intro t ht hcon
    rw [Bool.and_eq_true, beq_iff_eq, beq_iff_eq] at hcon
    exact hAB ((hOwn t ht hcon.1).symm.trans hcon.2)
  refine ⟨?_, ?_, ?_⟩
  · intro l hl t htl
    have hl2 : db.tasks.filter (fun t2 => t2.userId == B) = l := by
      simpa [getTasks] using hl
    subst hl2
    have hB := (List.mem_filter.mp htl).2
    rw [beq_iff_eq] at hB
    intro hA
    exact hAB (hA.symm.trans hB)
  · simp [deleteTask, hfind]
  · intro T S D hT hS hD
    simp [putTask, truthy_some hT, truthy_some hS, truthy_some hD, hfind]

/-- Witness for C1: user 1 cannot delete or update the task of user 0. -/
theorem owner_scoping_witness :
    deleteTask 1 1 ⟨[], [⟨1, "t", "open", "d", 0⟩], 2⟩ =
      (⟨404, .err "Task not found or not authorized to delete it"⟩,
       ⟨[], [⟨1, "t", "open", "d", 0⟩], 2⟩) ∧
    putTask 1 1 (some "t2") (some "done") (some "d")
        ⟨[], [⟨1, "t", "open", "d", 0⟩], 2⟩ =
      (⟨404, .err "Task not found or not authorized to update it"⟩,
       ⟨[], [⟨1, "t", "open", "d", 0⟩], 2⟩) :=
  ⟨(owner_scoping ⟨[], [⟨1, "t", "open", "d", 0⟩], 2⟩ 0 1 1 (by decide)
      (by intro t ht hid; rw [List.mem_singleton] at ht; subst ht; rfl)).2.1,
   (owner_scoping ⟨[], [⟨1, "t", "open", "d", 0⟩], 2⟩ 0 1 1 (by decide)
      (by intro t ht hid; rw [List.mem_singleton] at ht; subst ht; rfl)).2.2
     "t2" "done" "d" (by decide) (by decide) (by decide)⟩

/-- C9: requests failing the field-presence validation are answered 400 and
return the store exactly as it was, for task creation, task update,
registration and login alike. -/
theorem validation_guard (db : DB) (uid id : Nat) (secret : String)
    (now : Nat) (title status date username password : Option String) :
    ((title = none ∨ status = none ∨ date = none) →
      postTasks uid title status date db =
        (⟨400, .err "Please provide all fields"⟩, db) ∧
      putTask id uid title status date db =
        (⟨400, .err "Please provide all fields"⟩, db)) ∧
    ((username = none ∨ password = none) →
      register db username password =
        (⟨400, .err "Please provide both username and password"⟩, db) ∧
      login db username password secret now =
        (⟨400, .err "Please provide both username and password"⟩, db)) := by
  constructor
  · intro h
    have hc : (!truthy title || !truthy status || !truthy date) = true := by
      rcases h with h | h | h <;> subst h <;> simp [truthy]
    exact ⟨by simp [postTasks, hc], by simp [putTask, hc]⟩
  · intro h
    have hc : (!truthy username || !truthy password) = true := by
      rcases h with h | h <;> subst h <;> simp [truthy]
    exact ⟨by simp [register, hc], by simp [login, hc]⟩

/-- Witness for C9: a POST with no title and a login with no password are
rejected without touching an arbitrary concrete store. -/
theorem validation_guard_witness :
    postTasks 0 none (some "open") (some "d") ⟨[], [⟨1, "t", "o", "d", 0⟩], 2⟩ =
      (⟨400, .err "Please provide all fields"⟩,
       ⟨[], [⟨1, "t", "o", "d", 0⟩], 2⟩) ∧
    login ⟨[], [⟨1, "t", "o", "d", 0⟩], 2⟩ (some "alice") none "s" 0 =
      (⟨400, .err "Please provide both username and password"⟩,
       ⟨[], [⟨1, "t", "o", "d", 0⟩], 2⟩) :=
  ⟨((validation_guard ⟨[], [⟨1, "t", "o", "d", 0⟩], 2⟩ 0 0 "s" 0 none
      (some "open") (some "d") (some "alice") none).1 (Or.inl rfl)).1,
   ((validation_guard ⟨[], [⟨1, "t", "o", "d", 0⟩], 2⟩ 0 0 "s" 0 none
      (some "open") (some "d") (some "alice") none).2 (Or.inr rfl)).2⟩

/-- C7: a successful owner `PUT` answers 200 and only overwrites the title,
status and completionDate of the documents matched by the ownership-scoped
lookup, keeping their id and owner; every other task, every User record and
the id counter are untouched. -/
theorem put_owner_frame (db : DB) (id uid : Nat) (title status date : String)
    (t : Task) (resp : HttpResponse) (db2 : DB)
    (hT : title ≠ "") (hS : status ≠ "") (hD : date ≠ "")
    (hfind : db.tasks.find? (fun t2 => t2._id == id && t2.userId == uid) = some t)
    (hrun : putTask id uid (some title) (some status) (some date) db = (resp, db2)) :
    resp.status = 200 ∧
    db2.users = db.users ∧
    db2.nextId = db.nextId ∧
    db2.tasks.length = db.tasks.length ∧
    (∀ i, i < db.tasks.length →
      ∀ told, db.tasks[i]? = some told →
        (told._id = id ∧ told.userId = uid →
          db2.tasks[i]? =
            some { told with title := title, status := status, completionDate := date }) ∧
        (¬(told._id = id ∧ told.userId = uid) →
          db2.tasks[i]? = some told)) := by
  have hpred := List.find?_some hfind
  rw [Bool.and_eq_true, beq_iff_eq, beq_iff_eq] at hpred
  have hput : putTask id uid (some title) (some status) (some date) db =
      (⟨200, .msgTask "Task updated successfully"
          { t with title := title, status := status, completionDate := date }⟩,
       { db with tasks := db.tasks.map (fun t2 =>
           if t2._id == id && t2.userId == uid then
             { t with title := title, status := status, completionDate := date }
           else t2) }) := by
    simp [putTask, truthy_some hT, truthy_some hS, truthy_some hD, hfind]
  rw [hput] at hrun
  injection hrun with h1 h2
  subst h1 h2
  refine ⟨rfl, rfl, rfl, by simp, ?_⟩
  intro i hi told htold
  constructor
  · intro hm
    have hb : (told._id == id && told.userId == uid) = true := by
      simp [hm.1, hm.2]
    simp only [List.getElem?_map, htold, Option.map_some, hb, if_true]
    have : ({ t with title := title, status := status, completionDate := date } : Task) =
        { told with title := title, status := status, completionDate := date } := by
      cases t
      cases told
      simp_all
    simp only [List.getElem?_map, htold, Option.map_some']
    rw [if_pos hb, this]
  · intro hm
    have hb : (told._id == id && told.userId == uid) = false := by
      rcases Decidable.not_and_iff_or_not.mp hm with h | h <;> simp [h]
    simp only [List.getElem?_map, htold, Option.map_some']
    rw [if_neg (by simp [hb])]

/-- Witness for C7: updating the second of two tasks of user 0 changes only
its mutable fields and leaves the other task and the users untouched. -/
theorem put_owner_frame_witness :
    (⟨200, .msgTask "Task updated successfully" ⟨2, "b2", "done", "d2", 0⟩⟩
        : HttpResponse).status = 200 ∧
    (⟨[⟨5, "u", "h"⟩], [⟨1, "a", "open", "d", 3⟩, ⟨2, "b2", "done", "d2", 0⟩], 9⟩
        : DB).users = (⟨[⟨5, "u", "h"⟩],
          [⟨1, "a", "open", "d", 3⟩, ⟨2, "b", "open", "d", 0⟩], 9⟩ : DB).users ∧
    (⟨[⟨5, "u", "h"⟩], [⟨1, "a", "open", "d", 3⟩, ⟨2, "b2", "done", "d2", 0⟩], 9⟩
        : DB).nextId = (⟨[⟨5, "u", "h"⟩],
          [⟨1, "a", "open", "d", 3⟩, ⟨2, "b", "open", "d", 0⟩], 9⟩ : DB).nextId ∧
    (⟨[⟨5, "u", "h"⟩], [⟨1, "a", "open", "d", 3⟩, ⟨2, "b2", "done", "d2", 0⟩], 9⟩
        : DB).tasks.length = (⟨[⟨5, "u", "h"⟩],
          [⟨1, "a", "open", "d", 3⟩, ⟨2, "b", "open", "d", 0⟩], 9⟩ : DB).tasks.length ∧
    (∀ i, i < (⟨[⟨5, "u", "h"⟩],
          [⟨1, "a", "open", "d", 3⟩, ⟨2, "b", "open", "d", 0⟩], 9⟩ : DB).tasks.length →
      ∀ told, (⟨[⟨5, "u", "h"⟩],
          [⟨1, "a", "open", "d", 3⟩, ⟨2, "b", "open", "d", 0⟩], 9⟩
            : DB).tasks[i]? = some told →
        (told._id = 2 ∧ told.userId = 0 →
          (⟨[⟨5, "u", "h"⟩], [⟨1, "a", "open", "d", 3⟩, ⟨2, "b2", "done", "d2", 0⟩], 9⟩
            : DB).tasks[i]? =
            some { told with title := "b2", status := "done", completionDate := "d2" }) ∧
        (¬(told._id = 2 ∧ told.userId = 0) →
          (⟨[⟨5, "u", "h"⟩], [⟨1, "a", "open", "d", 3⟩, ⟨2, "b2", "done", "d2", 0⟩], 9⟩
            : DB).tasks[i]? = some told)) :=
  put_owner_frame
    ⟨[⟨5, "u", "h"⟩], [⟨1, "a", "open", "d", 3⟩, ⟨2, "b", "open", "d", 0⟩], 9⟩
    2 0 "b2" "done" "d2" ⟨2, "b", "open", "d", 0⟩
    ⟨200, .msgTask "Task updated successfully" ⟨2, "b2", "done", "d2", 0⟩⟩
    ⟨[⟨5, "u", "h"⟩], [⟨1, "a", "open", "d", 3⟩, ⟨2, "b2", "done", "d2", 0⟩], 9⟩
    (by decide) (by decide) (by decide) rfl rfl

/-- C3: starting from a store holding no task of the user and supplying the
three (non-empty) fields, POST then GET returns exactly one task matching
title, status, completionDate and owner; a PUT of that task to status
`done` is reflected by the next GET; deleting it makes the next GET return
the empty list. -/
theorem crud_round_trip (db : DB) (uid : Nat) (title status date : String)
    (hT : title ≠ "") (hS : status ≠ "") (hD : date ≠ "")
    (hNone : db.tasks.filter (fun t => t.userId == uid) = [])
    (hFresh : ∀ t ∈ db.tasks, t._id ≠ db.nextId) :
    ∃ (tsk : Task) (db1 : DB),
      postTasks uid (some title) (some status) (some date) db =
        (⟨201, .msgTask "Task added successfully" tsk⟩, db1) ∧
      tsk.title = title ∧ tsk.status = status ∧ tsk.completionDate = date ∧
      tsk.userId = uid ∧
      (getTasks uid db1).1.body = .tasks [tsk] ∧
      ∃ (tsk2 : Task) (db2 : DB),
        putTask tsk._id uid (some title) (some "done") (some date) db1 =
          (⟨200, .msgTask "Task updated successfully" tsk2⟩, db2) ∧
        tsk2._id = tsk._id ∧ tsk2.title = title ∧ tsk2.status = "done" ∧
        tsk2.completionDate = date ∧ tsk2.userId = uid ∧
        (getTasks uid db2).1.body = .tasks [tsk2] ∧
        ∃ db3 : DB,
          deleteTask tsk._id uid db2 =
            (⟨200, .msg "Task deleted successfully"⟩, db3) ∧
          (getTasks uid db3).1.body = .tasks [] := by
  have hpredF : ∀ t ∈ db.tasks, ¬ (t._id == db.nextId && t.userId == uid) = true := by
    intro t ht hcon
    rw [Bool.and_eq_true, beq_iff_eq] at hcon
    exact hFresh t ht hcon.1
  have hf0 : db.tasks.find? (fun t => t._id == db.nextId && t.userId == uid) = none :=
    List.find?_eq_none.mpr hpredF
  have hidF : ∀ b ∈ db.tasks, ¬ (b._id == db.nextId) = true := by
    intro b hb hcon
    exact hFresh b hb (beq_iff_eq.mp hcon)
  refine ⟨⟨db.nextId, title, status, date, uid⟩,
    ⟨db.users, db.tasks ++ [⟨db.nextId, title, status, date, uid⟩], db.nextId + 1⟩,
    ?_, rfl, rfl, rfl, rfl, ?_, ⟨db.nextId, title, "done", date, uid⟩,
    ⟨db.users, db.tasks ++ [⟨db.nextId, title, "done", date, uid⟩], db.nextId + 1⟩,
    ?_, rfl, rfl, rfl, rfl, rfl, ?_, ⟨db.users, db.tasks, db.nextId + 1⟩, ?_, ?_⟩
  · simp [postTasks, truthy_some hT, truthy_some hS, truthy_some hD]
  · simp [getTasks, List.filter_append, hNone]
  · have hfind1 : (db.tasks ++ [(⟨db.nextId, title, status, date, uid⟩ : Task)]).find?
        (fun t => t._id == db.nextId && t.userId == uid) =
          some ⟨db.nextId, title, status, date, uid⟩ := by
      rw [find?_append_of_none _ hf0]
      simp [List.find?]
    have hmap : db.tasks.map (fun t2 =>
        if t2._id = db.nextId ∧ t2.userId = uid then
          (⟨db.nextId, title, "done", date, uid⟩ : Task)
        else t2) = db.tasks := by
      refine (List.map_congr_left ?_).trans (List.map_id' db.tasks)
      intro a ha
      rw [if_neg]
      intro hcon
      exact hFresh a ha hcon.1
    simp [putTask, truthy_some hT, truthy_some hD, truthy_some (show ("done" : String) ≠ "" by decide),
      hfind1, List.map_append]
    exact hmap
  · simp [getTasks, List.filter_append, hNone]
  · have hfind2 : (db.tasks ++ [(⟨db.nextId, title, "done", date, uid⟩ : Task)]).find?
        (fun t => t._id == db.nextId && t.userId == uid) =
          some ⟨db.nextId, title, "done", date, uid⟩ := by
      rw [find?_append_of_none _ hf0]
      simp [List.find?]
    have herase : ((db.tasks ++ [(⟨db.nextId, title, "done", date, uid⟩ : Task)]).eraseP
        (fun t => t._id == db.nextId)) = db.tasks := by
      rw [List.eraseP_append_right _ hidF]
      simp [List.eraseP]
    simp [deleteTask, hfind2, herase]
  · simp [getTasks, hNone]

/-- Witness for C3: the round trip for user 4 on a store holding one task
of another user. -/
theorem crud_round_trip_witness :
    ∃ (tsk : Task) (db1 : DB),
      postTasks 4 (some "x") (some "open") (some "2024-01-01")
          ⟨[], [⟨0, "other", "o", "d", 1⟩], 3⟩ =
        (⟨201, .msgTask "Task added successfully" tsk⟩, db1) ∧
      tsk.title = "x" ∧ tsk.status = "open" ∧ tsk.completionDate = "2024-01-01" ∧
      tsk.userId = 4 ∧
      (getTasks 4 db1).1.body = .tasks [tsk] ∧
      ∃ (tsk2 : Task) (db2 : DB),
        putTask tsk._id 4 (some "x") (some "done") (some "2024-01-01") db1 =
          (⟨200, .msgTask "Task updated successfully" tsk2⟩, db2) ∧
        tsk2._id = tsk._id ∧ tsk2.title = "x" ∧ tsk2.status = "done" ∧
        tsk2.completionDate = "2024-01-01" ∧ tsk2.userId = 4 ∧
        (getTasks 4 db2).1.body = .tasks [tsk2] ∧
        ∃ db3 : DB,
          deleteTask tsk._id 4 db2 =
            (⟨200, .msg "Task deleted successfully"⟩, db3) ∧
          (getTasks 4 db3).1.body = .tasks [] :=
  crud_round_trip ⟨[], [⟨0, "other", "o", "d", 1⟩], 3⟩ 4 "x" "open" "2024-01-01"
    (by decide) (by decide) (by decide) rfl
    (by intro t ht; rw [List.mem_singleton] at ht; subst ht; decide)

end Backend
